import Mathlib

/-!
Verification of the inventory-parsing and changer-orchestration core of
`mtx-changer-python.py` (a Bacula tape-autochanger control script).

The status output of the external `mtx` utility is modelled as a list of
recognised lines (`RawLine`).  A constructor `other` stands for a line that
matches none of the grammars the script's regular expressions recognise
(in particular an `other` line never contains the text `Storage Changer`
nor matches an element pattern).  The functions below are shallow
embeddings of the script's functions of the same names; searches that the
script performs with `re.search` / `re.findall` over the joined text are
expressed as the corresponding first-match / all-match scans over the
line list, in the same order the lines occur in the text.
-/

/-- One line of `mtx status` output, as recognised by the script's regular
expressions: a Data Transfer (drive) element, empty or full (with the
source storage slot and volume tag), a Storage element, an Import/Export
element, the `Storage Changer` summary line, or an unrecognised line. -/
inductive RawLine where
  | dtEmpty (idx : Nat)
  | dtFull (idx srcSlot : Nat) (vol : String)
  | sEmpty (slot : Nat)
  | sFull (slot : Nat) (vol : String)
  | ieEmpty (slot : Nat)
  | ieFull (slot : Nat) (vol : String)
  | chgrSummary (dev : String) (drives slots ie : Nat)
  | other (s : String)
deriving DecidableEq, Repr

namespace Mtx

/-- Does the line match `Data Transfer Element \d+:.*\w` (any drive line)? -/
def isDT : RawLine → Bool
  | .dtEmpty _ => true
  | .dtFull _ _ _ => true
  | _ => false

/-- Does the line match `Storage Element \d+:.*\w` (a storage line; the
import/export lines have a space, not a colon, after the number and do
not match)? -/
def isS : RawLine → Bool
  | .sEmpty _ => true
  | .sFull _ _ => true
  | _ => false

/-- Does the line match `Storage Element \d+ IMPORT.EXPORT.*\w`? -/
def isIE : RawLine → Bool
  | .ieEmpty _ => true
  | .ieFull _ _ => true
  | _ => false

/-- The element list built by `do_listall`: all drive lines, then all
storage lines, then (only when `include_import_export` is set) all
import/export lines, each sublist in device-reported order. -/
def listallElements (lines : List RawLine) (includeIE : Bool) : List RawLine :=
  lines.filter isDT ++ lines.filter isS ++ (if includeIE then lines.filter isIE else [])

/-- The canonical token `do_listall` produces for one element line via its
chain of `re.sub` rewrites.  Lines that are not element lines are never
fed to it (they survive the rewrites unchanged in the script; we return
them verbatim). -/
def listallToken : RawLine → String
  | .dtEmpty n => "D:" ++ toString n ++ ":E"
  | .dtFull n s v => "D:" ++ toString n ++ ":F:" ++ toString s ++ ":" ++ v
  | .sEmpty n => "S:" ++ toString n ++ ":E"
  | .sFull n v => "S:" ++ toString n ++ ":F:" ++ v
  | .ieEmpty n => "I:" ++ toString n ++ ":E"
  | .ieFull n v => "I:" ++ toString n ++ ":F:" ++ v
  | .chgrSummary d _ _ _ => d
  | .other s => s

/-- The accumulation loop shared by `do_listall`: append each element's
token, followed by a newline unless the element compares equal (`==`,
value equality in Python) to the LAST element of the whole list. -/
def renderTokens (last : Option RawLine) : List RawLine → String
  | [] => ""
  | e :: rest =>
      listallToken e ++ (if last = some e then "" else "\n") ++ renderTokens last rest

/-- `do_listall`: the stdout payload of the `listall` command, built from
one status dump. -/
def do_listall (lines : List RawLine) (includeIE : Bool) : String :=
  let els := listallElements lines includeIE
  renderTokens els.getLast? els

/-- Spec-side rendering: newline-separated lines with no trailing newline
after the last line (stated from the spec's words, for comparison with
`do_listall`). -/
def joinLines : List String → String
  | [] => ""
  | [t] => t
  | t :: ts => t ++ "\n" ++ joinLines ts

/-- A string matches one of the canonical `listall` token grammars
`D:<n>:F:<slot>:<vol>` / `D:<n>:E`, `S:<n>:F:<vol>` / `S:<n>:E`,
`I:<n>:F:<vol>` / `I:<n>:E`. -/
def CanonicalToken (t : String) : Prop :=
  (∃ (n s : Nat) (v : String), t = "D:" ++ toString n ++ ":F:" ++ toString s ++ ":" ++ v) ∨
  (∃ n : Nat, t = "D:" ++ toString n ++ ":E") ∨
  (∃ (n : Nat) (v : String), t = "S:" ++ toString n ++ ":F:" ++ v) ∨
  (∃ n : Nat, t = "S:" ++ toString n ++ ":E") ∨
  (∃ (n : Nat) (v : String), t = "I:" ++ toString n ++ ":F:" ++ v) ∨
  (∃ n : Nat, t = "I:" ++ toString n ++ ":E")

/-- Is the line a FULL drive element (matched by
`Data Transfer Element \d+:Full.*\w` in `do_list`)? -/
def isDTFull : RawLine → Bool
  | .dtFull _ _ _ => true
  | _ => false

/-- Is the line a FULL storage element (matched by
`Storage Element \d+:Full :.*\w` in `do_list`)? -/
def isSFull : RawLine → Bool
  | .sFull _ _ => true
  | _ => false

/-- Is the line a FULL import/export element? -/
def isIEFull : RawLine → Bool
  | .ieFull _ _ => true
  | _ => false

/-- The element list built by `do_list`: full drive lines, then full
storage lines, then (when configured) full import/export lines. -/
def listElements (lines : List RawLine) (includeIE : Bool) : List RawLine :=
  lines.filter isDTFull ++ lines.filter isSFull ++
    (if includeIE then lines.filter isIEFull else [])

/-- The `<slot>:<volume>` token `do_list` produces for one full element on
its non-packet-loader branch (drive-resident volumes are reported under
their source storage slot). -/
def listToken : RawLine → String
  | .dtFull _ s v => toString s ++ ":" ++ v
  | .sFull n v => toString n ++ ":" ++ v
  | .ieFull n v => toString n ++ ":" ++ v
  | e => listallToken e

/-- `do_list`: the stdout payload of the `list` command.  When
`vxa_packetloader` is set the loop body only rewrites its temporary
string; the accumulation statement sits on the `else` branch, so nothing
is ever appended to the output. -/
def do_list (vxaPacketloader includeIE : Bool) (lines : List RawLine) : String :=
  let els := listElements lines includeIE
  els.foldl
    (fun acc e =>
      if vxaPacketloader then acc
      else acc ++ listToken e ++ (if els.getLast? = some e then "" else "\n"))
    ""

/-- Is the line the `Storage Changer ...` summary line searched for by
`do_slots`? -/
def isSummary : RawLine → Bool
  | .chgrSummary _ _ _ _ => true
  | _ => false

/-- `do_slots`: search the status dump for the first `Storage Changer`
line and extract the slot count.  When no such line exists, the script
calls `.group(0)` on the `None` returned by `re.search`, raising an
`AttributeError`; we model the raised exception as `Except.error`. -/
def do_slots (lines : List RawLine) : Except String String :=
  match lines.find? isSummary with
  | some (.chgrSummary _ _ slots _) => Except.ok (toString slots)
  | _ => Except.error "AttributeError: NoneType object has no attribute group"

/-- Does this `listall` element line match `[SI]:<slot>:.:(.*)`, i.e. is
it a full Storage or Import/Export token at the given (string-rendered)
slot?  Empty tokens `S:<n>:E` end after the `E` and cannot match the
trailing `:(.*)` of the pattern. -/
def matchesSIFull (slot : String) : RawLine → Bool
  | .sFull n _ => toString n == slot
  | .ieFull n _ => toString n == slot
  | _ => false

/-- Does this `listall` element line match `D:<drive_index>:F:\d+:(.*)`,
i.e. is it a full drive token at the given (string-rendered) drive index,
with ANY source slot? -/
def matchesDFullAtIdx (drvIdx : String) : RawLine → Bool
  | .dtFull i _ _ => toString i == drvIdx
  | _ => false

/-- The volume tag captured from a full element token (the text after the
last grammar separator). -/
def volOf : RawLine → String
  | .dtFull _ _ v => v
  | .sFull _ v => v
  | .ieFull _ v => v
  | _ => ""

/-- The `load` branch of `do_getvolname`, searching the `listall` element
list (the script searches the rendered `all_slots` text): first a full
Storage/Import-Export token at the requested slot; failing that, a full
drive token at the requested drive index (any source slot); failing both,
the empty label. -/
def do_getvolname_load (els : List RawLine) (slot drvIdx : String) : String :=
  match els.find? (matchesSIFull slot) with
  | some e => volOf e
  | none =>
      match els.find? (matchesDFullAtIdx drvIdx) with
      | some e => volOf e
      | none => ""

/-- The `while s <= load_wait` loop of `do_wait_for_drive`.  `ready s`
tells whether the `mt status` output of attempt number `s` matches the
platform ready pattern.  Returns the final value of `s` together with the
number of status queries issued. -/
def pollLoop (ready : Nat → Bool) (loadWait : Nat) (s q : Nat) : Nat × Nat :=
  if s ≤ loadWait then
    if ready s then (s, q + 1)
    else pollLoop ready loadWait (s + 1) (q + 1)
  else (s, q)
termination_by loadWait + 1 - s

/-- `do_wait_for_drive`: poll until the drive reports ready or the
`load_wait` window is exhausted; return code 1 exactly when the loop left
`s` at `load_wait + 1` (timeout), else 0.  First component is the return
code, second the number of status queries issued. -/
def do_wait_for_drive (ready : Nat → Bool) (loadWait : Nat) : Nat × Nat :=
  let r := pollLoop ready loadWait 0 0
  (if r.1 = loadWait + 1 then 1 else 0, r.2)

/-- Tapeinfo codes meaning the drive needs cleaning (`cln_codes`). -/
def cln_codes : List String := ["20", "21"]

/-- Does `p` occur at the very start of `s`?  (The effect of a regex
whose next literal is `p` at the current position.) -/
def strStartsWith (p s : String) : Bool := p.data.isPrefixOf s.data

/-- `chk_for_cln_tapes`: the (home-slot, volume) pairs found in the
`all_slots` text by
`re.findall('D:\d+:F:(\d+):(<cln_str>.*)')` (drive-resident cleaning
tapes, keyed by source slot) followed by
`re.findall('[SI]:(\d+):F:(<cln_str>.*)')` (slot-resident ones).  A
volume matches when `cln_str` is a prefix of its tag. -/
def chk_for_cln_tapes (els : List RawLine) (clnStr : String) : List (String × String) :=
  els.filterMap (fun e =>
    match e with
    | .dtFull _ s v => if strStartsWith clnStr v then some (toString s, v) else none
    | _ => none) ++
  els.filterMap (fun e =>
    match e with
    | .sFull n v => if strStartsWith clnStr v then some (toString n, v) else none
    | .ieFull n v => if strStartsWith clnStr v then some (toString n, v) else none
    | _ => none)

/-- A changer command issued by the cleaning orchestrator:
`mtx unload <slot> <drive index>` or `mtx load <slot> <drive index>`, with
the volume involved. -/
inductive ChgCmd where
  | unload (slot drvIdx vol : String)
  | load (slot drvIdx vol : String)
deriving DecidableEq, Repr

/-- The residency test in `do_clean`:
`re.search('^D:(\d+):F:' + cln_slot, all_slots)`.  Without `re.MULTILINE`
the `^` anchors at the very start of the `all_slots` text, so the pattern
can only match the FIRST element line; it matches when that line is a
full drive token whose text after `F:` starts with `cln_slot` (the slot
digits are not delimited, so `cln_slot` need only be a prefix).  Returns
the captured drive index. -/
def cln_tape_in_drv (els : List RawLine) (clnSlot : String) : Option String :=
  match els.head? with
  | some (.dtFull i s v) =>
      if strStartsWith clnSlot (toString s ++ ":" ++ v) then some (toString i) else none
  | _ => none

/-- `do_clean` for a chosen candidate `(cln_slot, cln_vol)` (the script
picks it from `cln_tapes` with `random.choice`; we take the choice as a
parameter): if the start-anchored residency test fires, first unload the
cleaning tape to its home slot, then load it into the requesting drive. -/
def do_clean (chosen : String × String) (els : List RawLine) (drvIdx : String) :
    List ChgCmd :=
  match cln_tape_in_drv els chosen.1 with
  | some i => [ChgCmd.unload chosen.1 i chosen.2, ChgCmd.load chosen.1 drvIdx chosen.2]
  | none => [ChgCmd.load chosen.1 drvIdx chosen.2]

/-- Result of `do_checkdrive`: its return value to `do_unload`, whether
the tapeinfo utility was queried, and whether `do_clean` was invoked
(i.e. whether any cleaning load/unload commands are issued). -/
structure CheckdriveResult where
  ret : Nat
  tapeinfoRan : Bool
  cleanCalled : Bool
deriving DecidableEq, Repr

/-- `do_checkdrive`: find cleaning-tape candidates; with `auto_clean` set
and no candidate, return 1 (no cleaning possible).  Then resolve the
drive's `/dev/sg#` node (`do_get_sg_node`, modelled as an `Option`
parameter); on failure return 1.  Otherwise query tapeinfo; the drive
needs cleaning when some alert tuple has a component equal to a code in
`cln_codes` (Python `cln_code in i` on a tuple is component equality);
call `do_clean` when that holds and `auto_clean` is set; return 0. -/
def do_checkdrive (autoClean : Bool) (els : List RawLine) (clnStr : String)
    (sgNode : Option String) (tapealerts : List (String × String)) : CheckdriveResult :=
  let clnTapes := chk_for_cln_tapes els clnStr
  if autoClean && clnTapes.isEmpty then ⟨1, false, false⟩
  else
    match sgNode with
    | none => ⟨1, false, false⟩
    | some _ =>
        let cleanDrive :=
          !tapealerts.isEmpty &&
            cln_codes.any (fun c => tapealerts.any (fun a => a.1 == c || a.2 == c))
        ⟨0, true, cleanDrive && autoClean⟩

/-- Result of the post-success tail of `do_unload`: the value returned to
the dispatcher (which the dispatcher passes to `sys.exit`), whether
`do_checkdrive` was called, and whether `do_clean` was invoked. -/
structure UnloadResult where
  exitCode : Nat
  checkdriveCalled : Bool
  cleanCalled : Bool
deriving DecidableEq, Repr

/-- The tail of `do_unload` after the `mtx unload` call SUCCEEDED
(returncode 0): with the is-cleaning flag `cln` set, skip the tapeinfo
tests entirely; otherwise, with `chk_drive` set, run `do_checkdrive` and
return 0 whether it reports 1 (nothing doable) or 0 (checks done); with
`chk_drive` unset, skip the tests.  Every branch returns the successful
`mtx` returncode 0. -/
def do_unload_success (cln chkDrive autoClean : Bool) (els : List RawLine)
    (clnStr : String) (sgNode : Option String)
    (tapealerts : List (String × String)) : UnloadResult :=
  if cln then ⟨0, false, false⟩
  else if chkDrive then
    let cd := do_checkdrive autoClean els clnStr sgNode tapealerts
    if cd.ret = 1 then ⟨0, true, cd.cleanCalled⟩
    else ⟨0, true, cd.cleanCalled⟩
  else ⟨0, false, false⟩

/-- `do_transfer` for resolved volume labels `volume = (srcVol, dstVol)`
and the exit code the `mtx transfer` call would produce: the guard
`volume[0] == '' or volume[1] != ''` calls `sys.exit(1)` without invoking
the tool (`Except.error` models `sys.exit`); otherwise the tool runs and
its returncode is returned to the caller (`Except.ok`, carrying the
value `do_transfer` returns).  First component: whether the tool was
invoked. -/
def do_transfer (srcVol dstVol : String) (toolRc : Nat) : Bool × Except Nat Nat :=
  if srcVol = "" ∨ dstVol ≠ "" then (false, Except.error 1)
  else (true, Except.ok toolRc)

/-- The `transfer` arm of the top-level dispatch: `do_transfer()` is
called WITHOUT `sys.exit(result)` (unlike the `load`/`unload` arms), so a
value returned from `do_transfer` is discarded and the script falls off
the end, exiting 0; only a `sys.exit` raised inside `do_transfer`
determines a nonzero process exit code. -/
def transferDispatchExit (srcVol dstVol : String) (toolRc : Nat) : Nat :=
  match do_transfer srcVol dstVol toolRc with
  | (_, Except.error e) => e
  | (_, Except.ok _) => 0

/-- A fold whose body never changes the accumulator returns the initial
accumulator. -/
lemma foldl_const {α β : Type} (f : β → α → β) (h : ∀ a e, f a e = a) :
    ∀ (l : List α) (acc : β), l.foldl f acc = acc
  | [], _ => rfl
  | e :: l, acc => by rw [List.foldl_cons, h]; exact foldl_const f h l acc

/-- When `do_checkdrive` starts with no cleaning-tape candidate, or
without a resolved sg node, it never calls `do_clean`. -/
lemma do_checkdrive_noclean (autoClean : Bool) (els : List RawLine) (clnStr : String)
    (sgNode : Option String) (tapealerts : List (String × String))
    (h : chk_for_cln_tapes els clnStr = [] ∨ sgNode = none) :
    (do_checkdrive autoClean els clnStr sgNode tapealerts).cleanCalled = false := by
  unfold do_checkdrive
  rcases h with h | h
  · rw [h]
    cases autoClean with
    | true => simp
    | false =>
        simp only [Bool.false_and, Bool.and_false]
        cases sgNode <;> simp
  · rw [h]
    by_cases hc : autoClean && (chk_for_cln_tapes els clnStr).isEmpty
    · rw [if_pos hc]
    · rw [if_neg hc]

end Mtx

/-- C1: for every pair of resolved volume labels for the transfer
command, the `mtx transfer` tool is invoked iff the source label is
non-empty and the destination label is empty; whenever the source is
empty or the destination non-empty, the script exits with code 1 via
`sys.exit(1)` and the tool is never invoked. -/
theorem Mtx.transfer_guard (srcVol dstVol : String) (toolRc : Nat) :
    ((do_transfer srcVol dstVol toolRc).1 = true ↔ (srcVol ≠ "" ∧ dstVol = "")) ∧
    ((srcVol = "" ∨ dstVol ≠ "") →
      do_transfer srcVol dstVol toolRc = (false, Except.error 1)) := by
  unfold do_transfer
  by_cases h : srcVol = "" ∨ dstVol ≠ ""
  · rw [if_pos h]
    refine ⟨?_, fun _ => rfl⟩
    simp only [Bool.false_eq_true, false_iff]
    rintro ⟨h1, h2⟩
    rcases h with h | h
    · exact h1 h
    · exact h h2
  · rw [if_neg h]
    push_neg at h
    refine ⟨?_, fun hc => absurd hc (by push_neg; exact h)⟩
    simp [h.1, h.2]

/-- C1 witness: at source label `""`, destination label `""`, the guard
refuses and the tool is not invoked. -/
theorem Mtx.transfer_guard_witness :
    do_transfer "" "" 7 = (false, Except.error 1) :=
  (Mtx.transfer_guard "" "" 7).2 (Or.inl rfl)

/-- C2 (code bug): with source label `"VOL1"` (Full) and destination
label `""` (Empty) the guard passes and the tool runs; when the tool
exits 2, `do_transfer` returns 2 to the dispatcher, but the dispatch arm
calls `do_transfer()` without `sys.exit(result)`, so the process exits 0,
not 2. -/
theorem Mtx.transfer_exit_discarded :
    (do_transfer "VOL1" "" 2).1 = true ∧
    (do_transfer "VOL1" "" 2).2 = Except.ok 2 ∧
    transferDispatchExit "VOL1" "" 2 = 0 ∧ (2 : Nat) ≠ 0 :=
  ⟨rfl, rfl, rfl, by decide⟩

/-- C4 counterexample: on a status dump with no `Storage Changer` summary
line (here: the empty dump), `do_slots` raises (models the
`AttributeError` from calling `.group(0)` on `None`) instead of yielding
an empty/zero result. -/
theorem Mtx.do_slots_missing_summary_cex :
    do_slots [] =
      Except.error "AttributeError: NoneType object has no attribute group" := rfl

/-- C4 amended: for every status dump with no `Storage Changer` summary
line, `do_slots` raises an `AttributeError` (modelled as `Except.error`)
rather than yielding an empty/zero result. -/
theorem Mtx.do_slots_missing_summary_raises (lines : List RawLine)
    (h : ∀ e ∈ lines, isSummary e = false) :
    do_slots lines =
      Except.error "AttributeError: NoneType object has no attribute group" := by
  unfold do_slots
  rw [List.find?_eq_none.mpr (fun e he => by rw [h e he]; exact Bool.false_ne_true)]

/-- C4 amended witness: a dump with unrecognised and element lines but no
summary line makes `do_slots` raise. -/
theorem Mtx.do_slots_missing_summary_witness :
    do_slots [RawLine.other "junk", RawLine.sEmpty 1] =
      Except.error "AttributeError: NoneType object has no attribute group" :=
  Mtx.do_slots_missing_summary_raises [RawLine.other "junk", RawLine.sEmpty 1]
    (by decide)

/-- C9: every unload performed with the is-cleaning flag set skips the
drive-alert check entirely: `do_checkdrive` is never called (hence no
tapeinfo query) and `do_clean` is never called, for every configuration
and snapshot. -/
theorem Mtx.cleaning_unload_skips_checkdrive (chkDrive autoClean : Bool)
    (els : List RawLine) (clnStr : String) (sgNode : Option String)
    (tapealerts : List (String × String)) :
    do_unload_success true chkDrive autoClean els clnStr sgNode tapealerts =
      ⟨0, false, false⟩ := rfl

/-- C10: when `vxa_packetloader` is set, `do_list` produces the empty
string for every status dump and every `include_import_export` setting,
because the output accumulation sits on the non-packet-loader branch. -/
theorem Mtx.list_vxa_empty (includeIE : Bool) (lines : List RawLine) :
    do_list true includeIE lines = "" := by
  unfold do_list
  exact foldl_const _ (fun a e => by simp) _ _

/-- C7: after a successful unload of a non-cleaning volume, if the
cleaning orchestrator finds no cleaning-tape candidate in the snapshot or
cannot resolve the drive's sg node, no cleaning command is issued and the
unload still reports success (exit code 0). -/
theorem Mtx.cleaning_unavailable_noop (chkDrive autoClean : Bool)
    (els : List RawLine) (clnStr : String) (sgNode : Option String)
    (tapealerts : List (String × String))
    (h : chk_for_cln_tapes els clnStr = [] ∨ sgNode = none) :
    (do_unload_success false chkDrive autoClean els clnStr sgNode tapealerts).exitCode
        = 0 ∧
    (do_unload_success false chkDrive autoClean els clnStr sgNode
        tapealerts).cleanCalled = false := by
  unfold do_unload_success
  cases chkDrive with
  | false => exact ⟨rfl, rfl⟩
  | true =>
      have hnc := do_checkdrive_noclean autoClean els clnStr sgNode tapealerts h
      by_cases hr : (do_checkdrive autoClean els clnStr sgNode tapealerts).ret = 1 <;>
        simp [hr, hnc]

/-- C7 witness: a library with no cleaning tape at all (empty snapshot),
`chk_drive` and `auto_clean` set: the unload exits 0 and no cleaning
command is issued. -/
theorem Mtx.cleaning_unavailable_noop_witness :
    (do_unload_success false true true [] "CLN" (some "/dev/sg1")
        [("20", "alert")]).exitCode = 0 ∧
    (do_unload_success false true true [] "CLN" (some "/dev/sg1")
        [("20", "alert")]).cleanCalled = false :=
  Mtx.cleaning_unavailable_noop true true [] "CLN" (some "/dev/sg1")
    [("20", "alert")] (Or.inl rfl)

/-- C8 (code bug): snapshot `D:0:E`, `D:1:F:3:CLN001`, `S:3:E` — the only
cleaning candidate (with prefix `CLN`) is volume `CLN001`, resident in
drive 1.  Because the residency regex is anchored at the start of the
whole `all_slots` text (`^` without `re.MULTILINE`), `do_clean` misses it
and issues only the load command, with no unload of the resident cleaning
tape first, although the snapshot shows the tape inside drive 1. -/
theorem Mtx.clean_resident_drive_missed :
    chk_for_cln_tapes [RawLine.dtEmpty 0, RawLine.dtFull 1 3 "CLN001",
        RawLine.sEmpty 3] "CLN" = [("3", "CLN001")] ∧
    do_clean ("3", "CLN001") [RawLine.dtEmpty 0, RawLine.dtFull 1 3 "CLN001",
        RawLine.sEmpty 3] "0" = [ChgCmd.load "3" "0" "CLN001"] ∧
    RawLine.dtFull 1 3 "CLN001" ∈
      [RawLine.dtEmpty 0, RawLine.dtFull 1 3 "CLN001", RawLine.sEmpty 3] := by
  refine ⟨rfl, rfl, by simp⟩

/-- When no attempt in the remaining window matches the ready pattern,
the loop runs to `s = loadWait + 1`, issuing one query per remaining
attempt. -/
lemma Mtx.pollLoop_timeout (ready : Nat → Bool) (w : Nat) :
    ∀ (n s q : Nat), w + 1 - s = n → s ≤ w + 1 →
      (∀ t, s ≤ t → t ≤ w → ready t = false) →
      pollLoop ready w s q = (w + 1, q + n)
  | 0, s, q, hn, hs, _ => by
      have hsw : s = w + 1 := by omega
      subst hsw
      rw [pollLoop, if_neg (by omega)]
      rfl
  | n + 1, s, q, hn, _, h => by
      have hsw : s ≤ w := by omega
      rw [pollLoop, if_pos hsw, h s le_rfl hsw, if_neg (by simp)]
      have ih := Mtx.pollLoop_timeout ready w n (s + 1) (q + 1) (by omega) (by omega)
        (fun t ht1 ht2 => h t (by omega) ht2)
      rw [ih]
      have hq : q + 1 + n = q + (n + 1) := by omega
      rw [hq]

/-- When attempt `t0` is the first matching one in the remaining window,
the loop stops there after `t0 - s + 1` further queries. -/
lemma Mtx.pollLoop_hit (ready : Nat → Bool) (w : Nat) :
    ∀ (n s q t0 : Nat), t0 - s = n → s ≤ t0 → t0 ≤ w → ready t0 = true →
      (∀ t, s ≤ t → t < t0 → ready t = false) →
      pollLoop ready w s q = (t0, q + n + 1)
  | 0, s, q, t0, hn, hs, hw, hr, _ => by
      have hst : s = t0 := by omega
      subst hst
      rw [pollLoop, if_pos (by omega), hr, if_pos rfl]
  | n + 1, s, q, t0, hn, hs, hw, hr, h => by
      have hlt : s < t0 := by omega
      rw [pollLoop, if_pos (by omega), h s le_rfl hlt, if_neg (by simp)]
      have ih := Mtx.pollLoop_hit ready w n (s + 1) (q + 1) t0 (by omega) (by omega)
        hw hr (fun t ht1 ht2 => h t (by omega) ht2)
      rw [ih]
      have hq : q + 1 + n + 1 = q + (n + 1) + 1 := by omega
      rw [hq]

/-- C6: for every `load_wait` window and every sequence of drive-status
outputs, `do_wait_for_drive` issues at most `load_wait + 1` status
queries; it returns 1 (TimedOut) exactly when no output in attempts
`0..load_wait` matched the ready pattern; and when attempt `t0` is the
first matching one it returns 0 (Ready) having stopped at that attempt
(exactly `t0 + 1` queries). -/
theorem Mtx.wait_for_drive_spec (ready : Nat → Bool) (w : Nat) :
    (do_wait_for_drive ready w).2 ≤ w + 1 ∧
    ((do_wait_for_drive ready w).1 = 1 ↔ ∀ s, s ≤ w → ready s = false) ∧
    (∀ t0, t0 ≤ w → ready t0 = true → (∀ t, t < t0 → ready t = false) →
      (do_wait_for_drive ready w).1 = 0 ∧ (do_wait_for_drive ready w).2 = t0 + 1) := by
  by_cases hall : ∀ s, s ≤ w → ready s = false
  · have hp := Mtx.pollLoop_timeout ready w (w + 1) 0 0 (by omega) (by omega)
      (fun t _ ht => hall t ht)
    have hval : do_wait_for_drive ready w = (1, w + 1) := by
      unfold do_wait_for_drive
      rw [hp]
      simp
    rw [hval]
    refine ⟨le_rfl, ⟨fun _ => hall, fun _ => rfl⟩, fun t0 ht0 hr _ => ?_⟩
    rw [hall t0 ht0] at hr
    exact absurd hr (by simp)
  · push_neg at hall
    obtain ⟨s0, hs0w, hs0r⟩ := hall
    have hex : ∃ s, s ≤ w ∧ ready s = true :=
      ⟨s0, hs0w, by revert hs0r; cases ready s0 <;> simp⟩
    obtain ⟨hk1, hk2⟩ := Nat.find_spec hex
    have hbelow : ∀ t, t < Nat.find hex → ready t = false := by
      intro t ht
      have hmin := Nat.find_min hex ht
      by_cases hrt : ready t = true
      · exact absurd ⟨by omega, hrt⟩ hmin
      · revert hrt; cases ready t <;> simp
    have hp := Mtx.pollLoop_hit ready w (Nat.find hex) 0 0 (Nat.find hex) (by omega)
      (Nat.zero_le _) hk1 hk2 (fun t _ ht => hbelow t ht)
    have hkne : Nat.find hex ≠ w + 1 := by
      intro hc
      rw [hc] at hk1
      omega
    have hval : do_wait_for_drive ready w = (0, Nat.find hex + 1) := by
      unfold do_wait_for_drive
      rw [hp]
      simp [hkne]
    rw [hval]
    refine ⟨Nat.succ_le_succ hk1, ?_, fun t0 ht0 hr hmin0 => ?_⟩
    · simp only [Nat.zero_ne_one, false_iff]
      intro hc
      rw [hc _ hk1] at hk2
      exact absurd hk2 (by simp)
    · have ht0k : t0 = Nat.find hex := by
        have h1 : Nat.find hex ≤ t0 := Nat.find_min' hex ⟨ht0, hr⟩
        by_contra hne
        have hlt : Nat.find hex < t0 := by omega
        rw [hmin0 _ hlt] at hk2
        exact absurd hk2 (by simp)
      subst ht0k
      exact ⟨rfl, rfl⟩

/-- C6 witness: with a six-second window and the drive first reporting
ready on attempt 2, the poller returns 0 after exactly 3 queries. -/
theorem Mtx.wait_for_drive_spec_witness :
    (do_wait_for_drive (fun s => s == 2) 5).1 = 0 ∧
    (do_wait_for_drive (fun s => s == 2) 5).2 = 2 + 1 :=
  (Mtx.wait_for_drive_spec (fun s => s == 2) 5).2.2 2 (by decide) (by decide)
    (by decide)

/-- C3 counterexample: snapshot `D:0:F:7:VOL1`, `S:5:E`; a load request
for slot 5 on drive 0.  No Storage/ImportExport element at slot 5 is
full, and no DataTransfer element has sourceSlot 5, yet the fallback
resolves to `VOL1` (the drive-index match alone suffices in the code),
where the claim requires the empty label. -/
theorem Mtx.getvolname_load_fallback_cex :
    do_getvolname_load [RawLine.dtFull 0 7 "VOL1", RawLine.sEmpty 5] "5" "0"
        = "VOL1" ∧
    ("VOL1" : String) ≠ "" ∧
    (∀ v : String,
      RawLine.dtFull 0 5 v ∉ [RawLine.dtFull 0 7 "VOL1", RawLine.sEmpty 5]) := by
  refine ⟨by decide, by decide, ?_⟩
  intro v hv
  simp only [List.mem_cons, List.mem_singleton] at hv
  rcases hv with hv | hv | hv <;> simp_all

/-- C3 amended: when no Storage/ImportExport element at the requested
slot is full, volume resolution falls back to the first DataTransfer
element whose drive index equals the requested drive index, REGARDLESS of
that element's sourceSlot; only when no such drive element exists is the
result the empty label. -/
theorem Mtx.getvolname_load_fallback (els : List RawLine) (slot drvIdx : String)
    (h : ∀ e ∈ els, matchesSIFull slot e = false) :
    (∃ i s, toString i = drvIdx ∧
        RawLine.dtFull i s (do_getvolname_load els slot drvIdx) ∈ els) ∨
    (do_getvolname_load els slot drvIdx = "" ∧
      ∀ i s v, RawLine.dtFull i s v ∈ els → toString i ≠ drvIdx) := by
  unfold do_getvolname_load
  rw [List.find?_eq_none.mpr (fun e he => by rw [h e he]; exact Bool.false_ne_true)]
  cases hf : els.find? (matchesDFullAtIdx drvIdx) with
  | none =>
      refine Or.inr ⟨rfl, fun i s v hm hi => ?_⟩
      have hn := List.find?_eq_none.mp hf _ hm
      exact hn (by simp [matchesDFullAtIdx, hi])
  | some e =>
      have hmem := List.mem_of_find?_eq_some hf
      have hpred := List.find?_some hf
      cases e <;> simp only [matchesDFullAtIdx] at hpred <;>
        first
          | exact absurd hpred Bool.false_ne_true
          | exact Or.inl ⟨_, _, eq_of_beq hpred, hmem⟩

/-- The accumulation loop produces the newline-joined tokens whenever the
`last` marker is the final element and occurs nowhere earlier (the
Python loop compares each element by VALUE against the last list entry). -/
lemma Mtx.renderTokens_eq_joinLines :
    ∀ (l : List RawLine) (last : RawLine), l.getLast? = some last →
      (∀ e ∈ l.dropLast, e ≠ last) →
      renderTokens (some last) l = joinLines (l.map listallToken)
  | [], last, hl, _ => by simp at hl
  | [e], last, hl, _ => by
      simp only [List.getLast?_singleton, Option.some_inj] at hl
      subst hl
      simp [renderTokens, joinLines]
  | e :: f :: rest, last, hl, hd => by
      have hne : e ≠ last := by
        apply hd
        simp [List.dropLast_cons₂]
      have hl2 : (f :: rest).getLast? = some last := by
        simpa [List.getLast?_cons_cons] using hl
      have hd2 : ∀ x ∈ (f :: rest).dropLast, x ≠ last := by
        intro x hx
        apply hd
        simp [List.dropLast_cons₂, hx]
      have ih := Mtx.renderTokens_eq_joinLines (f :: rest) last hl2 hd2
      have hif : (if some last = some e then "" else "\n") = "\n" := by
        rw [if_neg]
        intro hc
        exact hne (Option.some_inj.mp hc).symm
      calc renderTokens (some last) (e :: f :: rest)
        = listallToken e ++ (if some last = some e then "" else "\n") ++
            renderTokens (some last) (f :: rest) := rfl
        _ = listallToken e ++ "\n" ++ joinLines ((f :: rest).map listallToken) := by
            rw [hif, ih]
        _ = joinLines ((e :: f :: rest).map listallToken) := rfl

/-- On a duplicate-free element list, the `do_listall` accumulation is
exactly the newline-join of the canonical tokens. -/
lemma Mtx.renderTokens_nodup (l : List RawLine) (h : l.Nodup) :
    renderTokens l.getLast? l = joinLines (l.map listallToken) := by
  cases hl : l.getLast? with
  | none =>
      have : l = [] := by simpa using hl
      subst this
      rfl
  | some last =>
      refine Mtx.renderTokens_eq_joinLines l last hl (fun e he => ?_)
      have hne : l ≠ [] := by
        intro hc
        subst hc
        simp at hl
      have hsplit : l.dropLast ++ [l.getLast hne] = l := List.dropLast_append_getLast hne
      have hlast : last = l.getLast hne := by
        have := List.getLast?_eq_getLast l hne
        rw [hl] at this
        exact Option.some_inj.mp this
      have hnd : (l.dropLast ++ [l.getLast hne]).Nodup := by rw [hsplit]; exact h
      rw [List.nodup_append] at hnd
      intro hc
      exact hnd.2.2 he (by simp [hlast, hc])

/-- Every element `do_listall` selects is a drive, storage or
import/export element line. -/
lemma Mtx.listallElements_kinds (lines : List RawLine) (includeIE : Bool) :
    ∀ e ∈ listallElements lines includeIE, isDT e = true ∨ isS e = true ∨ isIE e = true := by
  intro e he
  unfold listallElements at he
  rcases List.mem_append.mp he with hh | hh
  · rcases List.mem_append.mp hh with h1 | h1
    · exact Or.inl (List.mem_filter.mp h1).2
    · exact Or.inr (Or.inl (List.mem_filter.mp h1).2)
  · cases includeIE with
    | true => exact Or.inr (Or.inr (List.mem_filter.mp (by simpa using hh)).2)
    | false => simp at hh

/-- C5: for every well-formed status dump (distinct element lines, as the
changer reports them), the `listall` output is the newline-join — hence
newline-separated with no trailing newline after the last line — of
exactly N + M (+ K when import/export is enabled) canonical tokens, in
device-reported order (N drive lines, M storage lines, K import/export
lines), each matching one of the canonical token grammars. -/
theorem Mtx.listall_canonical (lines : List RawLine) (includeIE : Bool)
    (hnd : (listallElements lines includeIE).Nodup) :
    do_listall lines includeIE =
      joinLines ((listallElements lines includeIE).map listallToken) ∧
    ((listallElements lines includeIE).map listallToken).length =
      (lines.filter isDT).length + (lines.filter isS).length +
        (if includeIE then (lines.filter isIE).length else 0) ∧
    ∀ t ∈ (listallElements lines includeIE).map listallToken, CanonicalToken t := by
  refine ⟨Mtx.renderTokens_nodup _ hnd, ?_, ?_⟩
  · simp only [List.length_map, listallElements, List.length_append]
    cases includeIE <;> simp
  · intro t ht
    obtain ⟨e, he, rfl⟩ := List.mem_map.mp ht
    have hk := Mtx.listallElements_kinds lines includeIE e he
    cases e with
    | dtEmpty n => exact Or.inr (Or.inl ⟨n, rfl⟩)
    | dtFull n s v => exact Or.inl ⟨n, s, v, rfl⟩
    | sEmpty n => exact Or.inr (Or.inr (Or.inr (Or.inl ⟨n, rfl⟩)))
    | sFull n v => exact Or.inr (Or.inr (Or.inl ⟨n, v, rfl⟩))
    | ieEmpty n => exact Or.inr (Or.inr (Or.inr (Or.inr (Or.inr ⟨n, rfl⟩))))
    | ieFull n v => exact Or.inr (Or.inr (Or.inr (Or.inr (Or.inl ⟨n, v, rfl⟩))))
    | chgrSummary d a b c => simp [isDT, isS, isIE] at hk
    | other s => simp [isDT, isS, isIE] at hk

/-- C5 witness: the spec's scenario — one full drive element (source slot
5, volume G03005TA) and one empty storage element — yields the two-line
join with no trailing newline. -/
theorem Mtx.listall_canonical_witness :
    do_listall [RawLine.dtFull 0 5 "G03005TA", RawLine.sEmpty 5] false =
      joinLines ((listallElements [RawLine.dtFull 0 5 "G03005TA",
          RawLine.sEmpty 5] false).map listallToken) ∧
    ((listallElements [RawLine.dtFull 0 5 "G03005TA", RawLine.sEmpty 5]
        false).map listallToken).length =
      ([RawLine.dtFull 0 5 "G03005TA", RawLine.sEmpty 5].filter isDT).length +
        ([RawLine.dtFull 0 5 "G03005TA", RawLine.sEmpty 5].filter isS).length +
        (if false then ([RawLine.dtFull 0 5 "G03005TA",
            RawLine.sEmpty 5].filter isIE).length else 0) ∧
    ∀ t ∈ (listallElements [RawLine.dtFull 0 5 "G03005TA", RawLine.sEmpty 5]
        false).map listallToken, CanonicalToken t :=
  Mtx.listall_canonical [RawLine.dtFull 0 5 "G03005TA", RawLine.sEmpty 5] false
    (by decide)

/-- C3 amended witness: with only `D:0:F:7:VOL1` in the snapshot and a
load request for slot 5 on drive 0, the fallback fires on the
drive-index-only match. -/
theorem Mtx.getvolname_load_fallback_witness :
    (∃ i s, toString i = "0" ∧
        RawLine.dtFull i s
            (do_getvolname_load [RawLine.dtFull 0 7 "VOL1"] "5" "0") ∈
          [RawLine.dtFull 0 7 "VOL1"]) ∨
    (do_getvolname_load [RawLine.dtFull 0 7 "VOL1"] "5" "0" = "" ∧
      ∀ i s v, RawLine.dtFull i s v ∈ [RawLine.dtFull 0 7 "VOL1"] →
        toString i ≠ "0") :=
  Mtx.getvolname_load_fallback [RawLine.dtFull 0 7 "VOL1"] "5" "0" (by decide)
